import Mathlib

/-!
Shallow embedding of the validated-form-submission flow of the repository
(zustand-example-tailwind-layout).

Sources embedded:
- src/src/app/components/ReactHookFormExample.tsx : `calculateAge`, the zod
  `schema`, the `useForm` default values, the debounced
  `checkEmailAvailability`, `handleEmailChange`, and `onSubmit`.
- src/unnamed/part_000 : the refactored privacy-settings variant
  (`privacySettingsSchema`, `PrivacySettingsForm.onSubmit`).
- src/src/app/components/store.ts : the zustand counter/text store.

Machine integers are modelled as Int/Nat; raw form values as Option-typed
fields (none = the field is absent / undefined); the asynchronous pieces
(debounce, response application) as explicit traces.
-/

/-- A calendar date, as the (year, month, day) triple the code reads off a
JS `Date` via getFullYear/getMonth/getDate.  Month differences are what the
code computes, so 1-based months are equivalent to JS 0-based ones. -/
structure Date where
  year : Nat
  month : Nat
  day : Nat
deriving DecidableEq, Repr

/-- Embeds `calculateAge` (ReactHookFormExample.tsx, lines 11-23): year
difference, decremented when the current month/day precede the birth
month/day. -/
def calculateAge (today birth : Date) : Int :=
  let age : Int := (today.year : Int) - (birth.year : Int)
  let monthDifference : Int := (today.month : Int) - (birth.month : Int)
  if monthDifference < 0 ∨ (monthDifference = 0 ∧ today.day < birth.day)
  then age - 1 else age

/-- Split a character list at every occurrence of `sep` (semantics of
String.splitOn restricted to single-character separators). -/
def splitOnChar (sep : Char) : List Char → List (List Char)
  | [] => [[]]
  | c :: rest =>
    let r := splitOnChar sep rest
    if c = sep then [] :: r
    else
      match r with
      | [] => [[c]]
      | g :: gs => (c :: g) :: gs

/-- Parse a (nonempty) all-digit character list as a natural number. -/
def digitsToNat (cs : List Char) : Option Nat :=
  if cs.isEmpty then none
  else if cs.all Char.isDigit then
    some (cs.foldl (fun n c => n * 10 + (c.toNat - 48)) 0)
  else none

/-- Parse a birth-date string in the `YYYY-MM-DD` shape emitted by the date
input.  A string `new Date` cannot parse yields NaN ages in the source, and
every NaN comparison is false, so an unparsable string makes the age rule
fail; here that is `none`. -/
def parseDate (s : String) : Option Date :=
  match splitOnChar (Char.ofNat 45) s.toList with
  | [y, m, d] =>
    match digitsToNat y, digitsToNat m, digitsToNat d with
    | some yn, some mn, some dn =>
      if 1 ≤ mn ∧ mn ≤ 12 ∧ 1 ≤ dn ∧ dn ≤ 31 then some ⟨yn, mn, dn⟩ else none
    | _, _, _ => none
  | _ => none

/-- Characters allowed anywhere in the local part of an email
(the schema's `z.string().email()` check: alphanumerics, underscore,
apostrophe, plus, minus, dot). -/
def isLocalChar (c : Char) : Bool :=
  c.isAlphanum || c = '_' || c.toNat = 39 || c = '+' || c = '-' || c = '.'

/-- Characters allowed as the last character of the local part. -/
def isLocalLast (c : Char) : Bool :=
  c.isAlphanum || c = '_' || c = '+' || c = '-'

/-- No two consecutive dots. -/
def noDoubleDot : List Char → Bool
  | a :: b :: rest => !(a = '.' && b = '.') && noDoubleDot (b :: rest)
  | _ => true

/-- Local part of an email: nonempty, not starting with a dot, no double
dot, drawn from the allowed characters, ending in a non-dot character. -/
def validLocal (l : List Char) : Bool :=
  match l with
  | [] => false
  | c :: _ =>
    !(c = '.') && l.all isLocalChar &&
      (match l.getLast? with
       | some d => isLocalLast d
       | none => false) && noDoubleDot l

/-- A domain label: nonempty, starts alphanumeric, continues with
alphanumerics or hyphens. -/
def validLabel (l : List Char) : Bool :=
  match l with
  | [] => false
  | c :: rest => c.isAlphanum && rest.all (fun d => d.isAlphanum || d = '-')

/-- A top-level domain: at least two letters. -/
def validTld (l : List Char) : Bool :=
  decide (2 ≤ l.length) && l.all Char.isAlpha

/-- Domain part of an email: one or more labels, a dot, then a TLD. -/
def validDomain (d : List Char) : Bool :=
  let parts := splitOnChar '.' d
  match parts.getLast? with
  | none => false
  | some tld =>
    decide (2 ≤ parts.length) && parts.dropLast.all validLabel && validTld tld

/-- The email-format predicate applied by `z.string().email("Invalid email
format")` in the schema: one `@`, a valid local part, a valid domain. -/
def isEmail (s : String) : Bool :=
  match splitOnChar '@' s.toList with
  | [l, d] => validLocal l && validDomain d
  | _ => false

/-- Raw form values bound by the Form State Controller for the registration
form (ReactHookFormExample.tsx).  `none` means the field is absent
(undefined), which zod reports as a missing required value. -/
structure FormValues where
  name : Option String
  email : Option String
  date_of_birth : Option String
  age : Option Int
  gender : Option String
  termsAccepted : Option Bool
  privacyPolicyAccepted : Option Bool
  privacySetting : Option String
deriving DecidableEq, Repr

/-- The refine predicate of the schema's `date_of_birth` field
(ReactHookFormExample.tsx, lines 29-33): the computed age must be ≥ 18. -/
def dobRefine (today : Date) (birthdate : String) : Bool :=
  match parseDate birthdate with
  | some b => decide (18 ≤ calculateAge today b)
  | none => false

inductive Gender
  | male
  | female
deriving DecidableEq, Repr

/-- The three privacy options; `pub`, `priv`, `prot` stand for the source
tags "public", "private", "protected" (the latter two are Lean keywords). -/
inductive Privacy
  | pub
  | priv
  | prot
deriving DecidableEq, Repr

def toGender (s : String) : Option Gender :=
  if s = "male" then some .male
  else if s = "female" then some .female
  else none

def toPrivacy (s : String) : Option Privacy :=
  if s = "public" then some .pub
  else if s = "private" then some .priv
  else if s = "protected" then some .prot
  else none

/-- The typed record produced when the registration schema accepts. -/
structure ValidRecord where
  name : String
  email : String
  date_of_birth : String
  age : Option Int
  gender : Option Gender
  termsAccepted : Bool
  privacyPolicyAccepted : Bool
  privacySetting : Privacy
deriving DecidableEq, Repr

/-- `Valid` with the coerced record, or `Invalid` with the collected
field-level errors (field name, message). -/
inductive ValidationResult (α : Type) where
  | Valid : α → ValidationResult α
  | Invalid : List (String × String) → ValidationResult α
deriving DecidableEq, Repr

def ValidationResult.isValid {α : Type} : ValidationResult α → Bool
  | .Valid _ => true
  | .Invalid _ => false

def ValidationResult.errorsOf {α : Type} : ValidationResult α → List (String × String)
  | .Valid _ => []
  | .Invalid errs => errs

/-- The fields declared by the registration schema, in declaration order. -/
inductive FieldId
  | name
  | email
  | date_of_birth
  | age
  | gender
  | termsAccepted
  | privacyPolicyAccepted
  | privacySetting
deriving DecidableEq, Repr

def FieldId.fieldName : FieldId → String
  | .name => "name"
  | .email => "email"
  | .date_of_birth => "date_of_birth"
  | .age => "age"
  | .gender => "gender"
  | .termsAccepted => "termsAccepted"
  | .privacyPolicyAccepted => "privacyPolicyAccepted"
  | .privacySetting => "privacySetting"

def allFields : List FieldId :=
  [.name, .email, .date_of_birth, .age, .gender, .termsAccepted,
   .privacyPolicyAccepted, .privacySetting]

/-- Per-field check of the registration schema (ReactHookFormExample.tsx,
lines 26-45).  `some msg` is the issue zod records for the field; `none`
means the field passes.  A missing required value yields zod's generic
"Required" invalid-type message, except for `privacySetting`, whose
`errorMap` replaces every issue message with "Select a valid privacy
option". -/
def fieldCheck (today : Date) (v : FormValues) : FieldId → Option String
  | .name =>
    match v.name with
    | none => some "Required"
    | some s => if s.isEmpty then some "Name is required" else none
  | .email =>
    match v.email with
    | none => some "Required"
    | some s => if isEmail s then none else some "Invalid email format"
  | .date_of_birth =>
    match v.date_of_birth with
    | none => some "Required"
    | some s =>
      if dobRefine today s then none
      else some "You must be at least 18 years old"
  | .age =>
    match v.age with
    | none => none
    | some n => if 0 < n then none else some "Age must be a positive number"
  | .gender =>
    match v.gender with
    | none => none
    | some s =>
      if s = "male" ∨ s = "female" then none else some "Invalid enum value"
  | .termsAccepted =>
    match v.termsAccepted with
    | none => some "Required"
    | some b =>
      if b then none else some "You must accept the terms and conditions"
  | .privacyPolicyAccepted =>
    match v.privacyPolicyAccepted with
    | none => some "Required"
    | some b => if b then none else some "You must accept the Privacy Policy"
  | .privacySetting =>
    match v.privacySetting with
    | none => some "Select a valid privacy option"
    | some s =>
      if s = "public" ∨ s = "private" ∨ s = "protected" then none
      else some "Select a valid privacy option"

/-- Fields whose absence is itself an error under the schema. -/
def requiredField : FieldId → Bool
  | .age => false
  | .gender => false
  | _ => true

/-- Whether the raw value of a field is absent. -/
def fieldAbsent (v : FormValues) : FieldId → Bool
  | .name => v.name.isNone
  | .email => v.email.isNone
  | .date_of_birth => v.date_of_birth.isNone
  | .age => v.age.isNone
  | .gender => v.gender.isNone
  | .termsAccepted => v.termsAccepted.isNone
  | .privacyPolicyAccepted => v.privacyPolicyAccepted.isNone
  | .privacySetting => v.privacySetting.isNone

/-- All field errors, collected in declaration order (zod object parsing
does not stop at the first failing field). -/
def fieldErrors (today : Date) (v : FormValues) : List (String × String) :=
  allFields.filterMap fun f => (fieldCheck today v f).map fun m => (f.fieldName, m)

/-- The Schema Validator for the registration form: `Invalid` with every
collected error when any field fails, otherwise `Valid` with the coerced
typed record. -/
def validate (today : Date) (v : FormValues) : ValidationResult ValidRecord :=
  if (fieldErrors today v).isEmpty then
    .Valid
      { name := v.name.getD ""
        email := v.email.getD ""
        date_of_birth := v.date_of_birth.getD ""
        age := v.age
        gender := v.gender.bind toGender
        termsAccepted := v.termsAccepted.getD false
        privacyPolicyAccepted := v.privacyPolicyAccepted.getD false
        privacySetting := (v.privacySetting.bind toPrivacy).getD .pub }
  else .Invalid (fieldErrors today v)


/-!
Form State Controller for the registration form (ReactHookFormExample.tsx).
-/

/-- The `useForm` default values (lines 58-70): only `privacySetting` is
given a default, "public"; every other field starts absent. -/
def defaultValues : FormValues :=
  { name := none
    email := none
    date_of_birth := none
    age := none
    gender := none
    termsAccepted := none
    privacyPolicyAccepted := none
    privacySetting := some "public" }

/-- State owned by the registration form: the bound values, the published
field errors, and the `emailTaken` advisory tri-state (none = unknown). -/
structure FormState where
  values : FormValues
  errors : List (String × String)
  emailTaken : Option Bool
deriving DecidableEq, Repr

/-- The initial controller state. -/
def initialState : FormState :=
  { values := defaultValues, errors := [], emailTaken := none }

/-- Outcome reported by the Submission Gateway's submit operation (the
axios POST): the promise resolves (success) or rejects (failure). -/
inductive GatewayOutcome
  | success
  | failure
deriving DecidableEq, Repr

/-- `reset()` of react-hook-form: restores the declared defaults and clears
the published errors (lines 100, `reset()` call in `onSubmit`). -/
def resetForm (s : FormState) : FormState :=
  { s with values := defaultValues, errors := [] }

/-- One run of `handleSubmit(onSubmit)` (lines 93-108): the resolver runs
the schema; on failure the errors are published and `onSubmit` never runs
(no gateway call); on success the errors are empty and `onSubmit` posts to
the gateway, calling `reset()` if the POST resolves and only logging if it
rejects.  Returns the next state and whether the gateway was called. -/
def handleSubmit (oc : GatewayOutcome) (today : Date) (s : FormState) :
    FormState × Bool :=
  match validate today s.values with
  | .Invalid errs => ({ s with errors := errs }, false)
  | .Valid _ =>
    match oc with
    | .success => (resetForm { s with errors := [] }, true)
    | .failure => ({ s with errors := [] }, true)

/-!
The privacy-settings variant (src/unnamed/part_000): `privacySettingsSchema`
and `PrivacySettingsForm`.
-/

/-- Raw values bound by the privacy-settings form. -/
structure PrivacyFormValues where
  name : Option String
  email : Option String
  birthDate : Option String
  privacy : Option String
  termsAccepted : Option Bool
deriving DecidableEq, Repr

/-- The refine predicate of `privacySettingsSchema.birthDate`
(src/unnamed/part_000, lines 36-41): the ABSOLUTE year difference between
the current year and the birth year must be ≥ 18 — no month/day
decrement. -/
def birthDateRefine (today : Date) (date : String) : Bool :=
  match parseDate date with
  | some b => decide (18 ≤ ((today.year : Int) - (b.year : Int)).natAbs)
  | none => false

/-- The typed record produced when the privacy-settings schema accepts. -/
structure PrivacyRecord where
  name : String
  email : String
  birthDate : String
  privacy : Privacy
  termsAccepted : Bool
deriving DecidableEq, Repr

/-- Singleton error list for a field check. -/
def optErr (nm : String) : Option String → List (String × String)
  | some m => [(nm, m)]
  | none => []

/-- Field errors of `privacySettingsSchema`, in declaration order.
`privacy` has `.default("public")`, so an absent value is not an error;
`termsAccepted` is `z.literal(true)`, whose invalid-literal message fires
for both an absent value and `false`. -/
def privacyFieldErrors (today : Date) (v : PrivacyFormValues) :
    List (String × String) :=
  optErr "name"
    (match v.name with
     | none => some "Required"
     | some s => if s.isEmpty then some "Name is required" else none) ++
  optErr "email"
    (match v.email with
     | none => some "Required"
     | some s => if isEmail s then none else some "Invalid email format") ++
  optErr "birthDate"
    (match v.birthDate with
     | none => some "Required"
     | some s =>
       if birthDateRefine today s then none
       else some "Age must be 18 or older") ++
  optErr "privacy"
    (match v.privacy with
     | none => none
     | some s =>
       if s = "public" ∨ s = "private" ∨ s = "protected" then none
       else some "Invalid enum value") ++
  optErr "termsAccepted"
    (match v.termsAccepted with
     | none => some "Invalid literal value, expected true"
     | some b =>
       if b then none else some "Invalid literal value, expected true")

/-- The Schema Validator for the privacy-settings form. -/
def privacyValidate (today : Date) (v : PrivacyFormValues) :
    ValidationResult PrivacyRecord :=
  if (privacyFieldErrors today v).isEmpty then
    .Valid
      { name := v.name.getD ""
        email := v.email.getD ""
        birthDate := v.birthDate.getD ""
        privacy := (v.privacy.bind toPrivacy).getD .pub
        termsAccepted := v.termsAccepted.getD false }
  else .Invalid (privacyFieldErrors today v)

/-- The privacy-settings form defaults (`defaultValues: { privacy:
"public" }`). -/
def privacyDefaults : PrivacyFormValues :=
  { name := none
    email := none
    birthDate := none
    privacy := some "public"
    termsAccepted := none }

/-- State owned by the privacy-settings form. -/
structure PrivacyFormState where
  values : PrivacyFormValues
  errors : List (String × String)
deriving DecidableEq, Repr

/-- One run of the privacy-settings form's `handleSubmit(onSubmit)`
(src/unnamed/part_000, `PrivacySettingsForm.onSubmit`): on invalid input,
errors are published and no gateway call happens; on valid input the record
is posted, and BOTH branches of the try/catch only log — the form is never
reset.  Returns the next state and whether the gateway was called. -/
def privacyHandleSubmit (oc : GatewayOutcome) (today : Date)
    (s : PrivacyFormState) : PrivacyFormState × Bool :=
  match privacyValidate today s.values with
  | .Invalid errs => ({ s with errors := errs }, false)
  | .Valid _ =>
    match oc with
    | .success => ({ s with errors := [] }, true)
    | .failure => ({ s with errors := [] }, true)

/-!
Debounced availability lookup (ReactHookFormExample.tsx, lines 74-90).
`handleEmailChange` sets the email value and calls the lodash-debounced
`checkEmailAvailability` with a 1000 ms trailing-edge quiet window: a burst
of calls produces one invocation, with the latest arguments, once the
window has elapsed with no further call.
-/

/-- The debounce wait used by `checkEmailAvailability`. -/
def debounceWait : Nat := 1000

/-- Trailing-edge debounce semantics over a time-ordered trace of calls
`(time, value)`: a call fires at `time + w` unless another call arrives
strictly before that moment, in which case it is superseded. -/
def debounceInvocations (w : Nat) : List (Nat × String) → List (Nat × String)
  | [] => []
  | (t, v) :: rest =>
    match rest with
    | [] => [(t + w, v)]
    | (t2, _) :: _ =>
      if t2 < t + w then debounceInvocations w rest
      else (t + w, v) :: debounceInvocations w rest

/-!
Application of availability-lookup responses (lines 74-83).  Each resolved
response runs `setEmailTaken(!response.data.isAvailable)`.  The handler
carries no tag or issuance check, so responses are applied in the order
they RESOLVE.  A response is modelled as `(issueIndex, isAvailable)`; the
issue index records which lookup it answers and is ignored by the code.
-/

/-- Fold the resolved responses, in arrival order, over the `emailTaken`
state exactly as the `then`-branch of `checkEmailAvailability` does. -/
def applyResponses (rs : List (Nat × Bool)) (init : Option Bool) :
    Option Bool :=
  rs.foldl (fun _ r => some (!r.2)) init

/-!
Key-set model of the controller's value record, for the one-entry-per-field
invariant.  react-hook-form keeps one entry per registered field; the eight
schema fields are all registered by the rendered inputs, and
`defaultValues` seeds `privacySetting` with "public".
-/

/-- A raw value as react-hook-form stores it: string, number, boolean, or
undefined (registered but untouched). -/
inductive RawValue
  | str : String → RawValue
  | int : Int → RawValue
  | boolv : Bool → RawValue
  | undef : RawValue
deriving DecidableEq, Repr

/-- The declared field names, in schema declaration order. -/
def declaredFields : List String :=
  ["name", "email", "date_of_birth", "age", "gender", "termsAccepted",
   "privacyPolicyAccepted", "privacySetting"]

/-- The value record right after initialization: one entry per registered
field, `privacySetting` seeded from `defaultValues`. -/
def initialValues : List (String × RawValue) :=
  [("name", .undef), ("email", .undef), ("date_of_birth", .undef),
   ("age", .undef), ("gender", .undef), ("termsAccepted", .undef),
   ("privacyPolicyAccepted", .undef), ("privacySetting", .str "public")]

/-- `setValue(nm, rv)` on the value record: updates the entry for `nm` in
place. -/
def setFieldKV (nm : String) (rv : RawValue)
    (vs : List (String × RawValue)) : List (String × RawValue) :=
  vs.map fun p => if p.1 = nm then (p.1, rv) else p

/-- How one submission run ends, as seen by the value record. -/
inductive SubmitEnd
  | invalid
  | succeeded
  | failed
deriving DecidableEq, Repr

/-- The operations of the Form State Controller, at the level of the value
record. -/
inductive FormOp
  | setF : String → RawValue → FormOp
  | submitOp : SubmitEnd → FormOp
  | resetOp : FormOp
deriving DecidableEq, Repr

/-- Effect of each operation on the value record: `setValue` updates one
entry; an invalid or failed submit leaves the values untouched; a
successful submit runs `reset()`, as does `reset` itself. -/
def applyOp (op : FormOp) (vs : List (String × RawValue)) :
    List (String × RawValue) :=
  match op with
  | .setF nm rv => setFieldKV nm rv vs
  | .submitOp .invalid => vs
  | .submitOp .failed => vs
  | .submitOp .succeeded => initialValues
  | .resetOp => initialValues

/-- Run a sequence of controller operations from initialization. -/
def runOps (ops : List FormOp) : List (String × RawValue) :=
  ops.foldl (fun vs op => applyOp op vs) initialValues

/-!
The zustand store (src/src/app/components/store.ts).
-/

/-- The store's state: a counter and a text field. -/
structure StoreState where
  count : Int
  text : String
deriving DecidableEq, Repr

/-- `create`'s initial state: count 0, empty text. -/
def initialStore : StoreState := { count := 0, text := "" }

/-- `increment: () => set((state) => ({ count: state.count + 1 }))`;
zustand's `set` merges, so `text` is untouched. -/
def increment (s : StoreState) : StoreState := { s with count := s.count + 1 }

/-- `decrement: () => set((state) => ({ count: state.count - 1 }))`. -/
def decrement (s : StoreState) : StoreState := { s with count := s.count - 1 }

/-- `setText: (text) => set({ text })`; `set` merges, so `count` is
untouched. -/
def setText (t : String) (s : StoreState) : StoreState := { s with text := t }

/-!
Concrete values used by witnesses and counterexamples: the end-to-end
record of the spec's testable properties.
-/

/-- The spec's end-to-end example record for the registration form. -/
def aliceValues : FormValues :=
  { name := some "Alice"
    email := some "a@b.com"
    date_of_birth := some "2000-01-01"
    age := none
    gender := none
    termsAccepted := some true
    privacyPolicyAccepted := some true
    privacySetting := some "public" }

/-- The same example record, shaped for the privacy-settings form. -/
def alicePrivacyValues : PrivacyFormValues :=
  { name := some "Alice"
    email := some "a@b.com"
    birthDate := some "2000-01-01"
    privacy := some "public"
    termsAccepted := some true }

/-- A fixed current date used by concrete evaluations. -/
def day0 : Date := ⟨2026, 10, 12⟩

/-!
Helper lemmas.
-/

theorem memAllFields (f : FieldId) : f ∈ allFields := by
  cases f <;> simp [allFields]

theorem setFieldKV_keys (nm : String) (rv : RawValue)
    (vs : List (String × RawValue)) :
    (setFieldKV nm rv vs).map Prod.fst = vs.map Prod.fst := by
  induction vs with
  | nil => rfl
  | cons p rest ih =>
    simp only [setFieldKV, List.map_cons] at ih ⊢
    by_cases h : p.1 = nm <;> simp [h, ih]

theorem errorsOf_validate (today : Date) (v : FormValues) :
    (validate today v).errorsOf = fieldErrors today v := by
  by_cases h : (fieldErrors today v).isEmpty
  · rw [validate, if_pos h, ValidationResult.errorsOf, List.isEmpty_iff.mp h]
  · rw [validate, if_neg h, ValidationResult.errorsOf]

theorem isValid_validate (today : Date) (v : FormValues) :
    (validate today v).isValid = (fieldErrors today v).isEmpty := by
  by_cases h : (fieldErrors today v).isEmpty
  · rw [validate, if_pos h, ValidationResult.isValid, h]
  · rw [validate, if_neg h, ValidationResult.isValid, Bool.eq_false_iff.mpr h]

theorem fieldErrors_eq_nil_iff (today : Date) (v : FormValues) :
    fieldErrors today v = [] ↔ ∀ f, fieldCheck today v f = none := by
  rw [fieldErrors, List.filterMap_eq_nil_iff]
  constructor
  · intro h f
    have := h f (memAllFields f)
    simpa using this
  · intro h f _
    simp [h f]

theorem mem_fieldErrors_of_check (today : Date) (v : FormValues)
    (f : FieldId) (m : String) (h : fieldCheck today v f = some m) :
    (f.fieldName, m) ∈ fieldErrors today v := by
  rw [fieldErrors]
  exact List.mem_filterMap.mpr ⟨f, memAllFields f, by simp [h]⟩

/-!
Claim theorems.
-/

/-- Claim C10: from every store state, increment followed by decrement (and
decrement followed by increment) returns the store to exactly its previous
state; both operations leave `text` untouched and change only `count`. -/
theorem store_inc_dec_inverse (s : StoreState) :
    decrement (increment s) = s ∧ increment (decrement s) = s ∧
    (increment s).text = s.text ∧ (decrement s).text = s.text := by
  obtain ⟨c, t⟩ := s
  refine ⟨?_, ?_, rfl, rfl⟩ <;> simp [increment, decrement]

/-- Claim C8: the value record produced by initialization followed by any
sequence of controller operations (setValue, submit with any outcome,
reset) carries exactly one entry per declared schema field, in order. -/
theorem values_keys_invariant (ops : List FormOp) :
    (runOps ops).map Prod.fst = declaredFields ∧ declaredFields.Nodup := by
  refine ⟨?_, by decide⟩
  rw [runOps]
  have h : ∀ vs : List (String × RawValue),
      vs.map Prod.fst = declaredFields →
      (ops.foldl (fun vs op => applyOp op vs) vs).map Prod.fst =
        declaredFields := by
    induction ops with
    | nil => intro vs h; simpa using h
    | cons op rest ih =>
      intro vs h
      rw [List.foldl_cons]
      apply ih
      cases op with
      | setF nm rv => rw [applyOp, setFieldKV_keys]; exact h
      | submitOp e => cases e <;> simp [applyOp] <;> first | exact h | decide
      | resetOp =>
        exact (by decide : initialValues.map Prod.fst = declaredFields)
  exact h initialValues (by decide)

/-- Claim C7 counterexample: the lookup issued second (index 2) resolves
first with "available"; then the stale response of the first lookup
(index 1, "taken") arrives and the handler applies it unconditionally, so
`emailTaken` ends as `some true` — v1's result — although v2's result had
already set it to `some false`.  Completion order wins, not issuance
order. -/
theorem stale_response_overwrites :
    applyResponses [(2, true)] none = some false ∧
    applyResponses [(2, true), (1, false)] none = some true ∧
    (some true : Option Bool) ≠ some false := by decide

/-- Claim C7 amended: `emailTaken` always reflects the LAST availability
response to resolve — whichever lookup it answers — because the handler
applies every arriving response with no issuance tag or staleness check. -/
theorem applyResponses_last_arrival (rs : List (Nat × Bool))
    (r : Nat × Bool) (init : Option Bool) :
    applyResponses (rs ++ [r]) init = some (!r.2) := by
  simp [applyResponses, List.foldl_append]

/-- Claim C6: two email changes issued within the 1-second quiet window
produce exactly one availability lookup, fired for the most recent value
once the window elapses. -/
theorem debounce_collapses (t1 t2 : Nat) (v1 v2 : String)
    (h1 : t1 ≤ t2) (h2 : t2 < t1 + debounceWait) :
    debounceInvocations debounceWait [(t1, v1), (t2, v2)] =
      [(t2 + debounceWait, v2)] := by
  rw [debounceInvocations, if_pos h2, debounceInvocations]

/-- Witness for C6 at a concrete trace: calls at 0 ms and 500 ms. -/
theorem debounce_collapses_witness :
    debounceInvocations debounceWait [(0, "a"), (500, "ab")] =
      [(500 + debounceWait, "ab")] :=
  debounce_collapses 0 500 "a" "ab" (by decide) (by decide)

/-- Claim C1: for every input, validation returns Invalid exactly when at
least one field check fails; the collected errors contain an entry for
every failing field (not just the first); and every missing required field
yields such an entry. -/
theorem validate_collects_all_errors (today : Date) (v : FormValues) :
    ((validate today v).isValid = false ↔ ∃ f, fieldCheck today v f ≠ none) ∧
    (∀ f m, fieldCheck today v f = some m →
      (f.fieldName, m) ∈ (validate today v).errorsOf) ∧
    (∀ f, requiredField f = true → fieldAbsent v f = true →
      ∃ m, fieldCheck today v f = some m ∧
        (f.fieldName, m) ∈ (validate today v).errorsOf) := by
  have h2 : ∀ f m, fieldCheck today v f = some m →
      (f.fieldName, m) ∈ (validate today v).errorsOf := by
    intro f m h
    rw [errorsOf_validate]
    exact mem_fieldErrors_of_check today v f m h
  refine ⟨?_, h2, ?_⟩
  · rw [isValid_validate]
    constructor
    · intro h
      by_contra hall
      push_neg at hall
      have : fieldErrors today v = [] :=
        (fieldErrors_eq_nil_iff today v).mpr hall
      rw [this] at h
      simp at h
    · intro ⟨f, hf⟩
      rw [Bool.eq_false_iff]
      intro hemp
      exact hf (((fieldErrors_eq_nil_iff today v).mp
        (List.isEmpty_iff.mp hemp)) f)
  · intro f hreq habs
    have hsome : ∃ m, fieldCheck today v f = some m := by
      cases f <;>
        simp_all [requiredField, fieldAbsent, fieldCheck,
          Option.isNone_iff_eq_none]
    obtain ⟨m, hm⟩ := hsome
    exact ⟨m, hm, h2 f m hm⟩

/-- Witness for C1 at the fully empty input: validation is Invalid and
every required field contributes an error. -/
theorem validate_collects_all_errors_witness :
    ((validate day0 ⟨none, none, none, none, none, none, none, none⟩).isValid
        = false ↔
      ∃ f, fieldCheck day0 ⟨none, none, none, none, none, none, none, none⟩ f
        ≠ none) ∧
    (∀ f m,
      fieldCheck day0 ⟨none, none, none, none, none, none, none, none⟩ f
        = some m →
      (f.fieldName, m) ∈
        (validate day0
          ⟨none, none, none, none, none, none, none, none⟩).errorsOf) ∧
    (∀ f, requiredField f = true →
      fieldAbsent ⟨none, none, none, none, none, none, none, none⟩ f = true →
      ∃ m,
        fieldCheck day0 ⟨none, none, none, none, none, none, none, none⟩ f
          = some m ∧
        (f.fieldName, m) ∈
          (validate day0
            ⟨none, none, none, none, none, none, none, none⟩).errorsOf) :=
  validate_collects_all_errors day0 ⟨none, none, none, none, none, none, none, none⟩

/-- Claim C2 counterexample: on 2026-10-12 a person born 2008-10-13 is one
day short of 18; the registration form's rule (with the month/day
decrement) computes 17 and rejects, but the privacy-settings variant's
rule accepts, because it compares the absolute year difference (18) to 18
with no month/day decrement — so the claimed behavior does not hold for
both form variants. -/
theorem age_rule_variants_disagree :
    calculateAge ⟨2026, 10, 12⟩ ⟨2008, 10, 13⟩ = 17 ∧
    dobRefine ⟨2026, 10, 12⟩ "2008-10-13" = false ∧
    birthDateRefine ⟨2026, 10, 12⟩ "2008-10-13" = true := by decide

/-- Claim C2 amended: the registration form's rule computes age in whole
years with the month/day decrement and rejects exactly when that age is
below 18 (one day short of 18 fails; turning 18 on the current date
passes); the privacy-settings variant instead accepts exactly when the
absolute year difference is at least 18, with no decrement. -/
theorem age_rules_characterized (today b : Date) (s : String)
    (h : parseDate s = some b) :
    (dobRefine today s = true ↔ 18 ≤ calculateAge today b) ∧
    (birthDateRefine today s = true ↔
      18 ≤ ((today.year : Int) - (b.year : Int)).natAbs) ∧
    dobRefine ⟨2026, 10, 12⟩ "2008-10-12" = true ∧
    dobRefine ⟨2026, 10, 12⟩ "2008-10-13" = false := by
  refine ⟨?_, ?_, by decide, by decide⟩ <;>
    simp [dobRefine, birthDateRefine, h]

/-- Witness for C2 at a concrete parsed date. -/
theorem age_rules_characterized_witness :
    (dobRefine day0 "2000-01-01" = true ↔
      18 ≤ calculateAge day0 ⟨2000, 1, 1⟩) ∧
    (birthDateRefine day0 "2000-01-01" = true ↔
      18 ≤ ((day0.year : Int) - ((2000 : Nat) : Int)).natAbs) ∧
    dobRefine ⟨2026, 10, 12⟩ "2008-10-12" = true ∧
    dobRefine ⟨2026, 10, 12⟩ "2008-10-13" = false :=
  age_rules_characterized day0 ⟨2000, 1, 1⟩ "2000-01-01" (by decide)

/-- Claim C3 counterexample: the spec's end-to-end record submitted through
the privacy-settings form with a successful gateway POST leaves the form
values exactly as they were — its onSubmit never calls reset, so the
values are not cleared back to the declared defaults. -/
theorem privacy_success_does_not_reset :
    (privacyHandleSubmit .success ⟨2026, 10, 12⟩
        { values := alicePrivacyValues, errors := [] }).1.values
      = alicePrivacyValues ∧
    alicePrivacyValues ≠ privacyDefaults ∧
    (privacyHandleSubmit .success ⟨2026, 10, 12⟩
        { values := alicePrivacyValues, errors := [] }).2 = true := by decide

/-- Claim C3 amended: on a successful submission of valid values, the
registration form clears the values back to the declared defaults and
clears the field errors (reset), while the privacy-settings variant leaves
its values unchanged and merely has no errors to publish. -/
theorem submit_success_resets (today : Date) (s : FormState)
    (p : PrivacyFormState)
    (hs : (validate today s.values).isValid = true)
    (hp : (privacyValidate today p.values).isValid = true) :
    handleSubmit .success today s =
      ({ values := defaultValues, errors := [],
         emailTaken := s.emailTaken }, true) ∧
    (privacyHandleSubmit .success today p).1.values = p.values ∧
    (privacyHandleSubmit .success today p).1.errors = [] ∧
    (privacyHandleSubmit .success today p).2 = true := by
  constructor
  · cases h : validate today s.values with
    | Valid r => simp [handleSubmit, h, resetForm]
    | Invalid e => rw [h] at hs; simp [ValidationResult.isValid] at hs
  · cases h : privacyValidate today p.values with
    | Valid r => simp [privacyHandleSubmit, h]
    | Invalid e => rw [h] at hp; simp [ValidationResult.isValid] at hp

/-- Witness for C3's amended statement at the spec's end-to-end record. -/
theorem submit_success_resets_witness :
    handleSubmit .success day0
        { values := aliceValues, errors := [], emailTaken := none } =
      ({ values := defaultValues, errors := [], emailTaken := none }, true) ∧
    (privacyHandleSubmit .success day0
        { values := alicePrivacyValues, errors := [] }).1.values
      = alicePrivacyValues ∧
    (privacyHandleSubmit .success day0
        { values := alicePrivacyValues, errors := [] }).1.errors = [] ∧
    (privacyHandleSubmit .success day0
        { values := alicePrivacyValues, errors := [] }).2 = true :=
  submit_success_resets day0
    { values := aliceValues, errors := [], emailTaken := none }
    { values := alicePrivacyValues, errors := [] }
    (by decide) (by decide)

/-- Claim C4: when validation is Invalid, the submit handler publishes the
collected errors and performs no gateway call, whatever the gateway would
have answered; and whenever termsAccepted is false, its fixed error message
is among the published errors. -/
theorem invalid_submit_no_gateway (today : Date) (s : FormState)
    (errs : List (String × String))
    (h : validate today s.values = .Invalid errs) :
    (∀ oc, handleSubmit oc today s = ({ s with errors := errs }, false)) ∧
    (s.values.termsAccepted = some false →
      ("termsAccepted", "You must accept the terms and conditions") ∈ errs) := by
  have herrs : errs = fieldErrors today s.values := by
    by_cases he : (fieldErrors today s.values).isEmpty
    · rw [validate, if_pos he] at h
      exact absurd h (by simp)
    · rw [validate, if_neg he] at h
      injection h with h'
      exact h'.symm
  constructor
  · intro oc
    simp [handleSubmit, h]
  · intro ht
    have hc : fieldCheck today s.values .termsAccepted =
        some "You must accept the terms and conditions" := by
      simp [fieldCheck, ht]
    rw [herrs]
    exact mem_fieldErrors_of_check today s.values .termsAccepted _ hc

/-- Witness for C4: the end-to-end record with termsAccepted set to false
is rejected with the terms error and no gateway call. -/
theorem invalid_submit_no_gateway_witness :
    (∀ oc, handleSubmit oc day0
        { values := { aliceValues with termsAccepted := some false },
          errors := [], emailTaken := none } =
      ({ values := { aliceValues with termsAccepted := some false },
         errors := [("termsAccepted",
           "You must accept the terms and conditions")],
         emailTaken := none }, false)) ∧
    ({ aliceValues with termsAccepted := some false
        : FormValues }.termsAccepted = some false →
      ("termsAccepted", "You must accept the terms and conditions") ∈
        [("termsAccepted", "You must accept the terms and conditions")]) :=
  invalid_submit_no_gateway day0
    { values := { aliceValues with termsAccepted := some false },
      errors := [], emailTaken := none }
    [("termsAccepted", "You must accept the terms and conditions")]
    (by decide)

/-- Claim C5: a failed gateway POST of a valid submission leaves the form
values unchanged, publishes no field errors (the failure is only logged),
and the gateway was indeed called. -/
theorem failed_submit_keeps_values (today : Date) (s : FormState)
    (h : (validate today s.values).isValid = true) :
    (handleSubmit .failure today s).1.values = s.values ∧
    (handleSubmit .failure today s).1.errors = [] ∧
    (handleSubmit .failure today s).2 = true := by
  cases hv : validate today s.values with
  | Valid r => simp [handleSubmit, hv]
  | Invalid e => rw [hv] at h; simp [ValidationResult.isValid] at h

/-- Witness for C5 at the spec's end-to-end record. -/
theorem failed_submit_keeps_values_witness :
    (handleSubmit .failure day0
        { values := aliceValues, errors := [], emailTaken := none }).1.values
      = aliceValues ∧
    (handleSubmit .failure day0
        { values := aliceValues, errors := [], emailTaken := none }).1.errors
      = [] ∧
    (handleSubmit .failure day0
        { values := aliceValues, errors := [], emailTaken := none }).2
      = true :=
  failed_submit_keeps_values day0
    { values := aliceValues, errors := [], emailTaken := none } (by decide)

/-- Claim C9 counterexample: identical FormValues validated on two
consecutive days give different results — the current date read through
calculateAge is hidden state that flows into the outcome, so the result
does not depend on FormValues and the FieldSpecs alone. -/
theorem validate_depends_on_clock :
    validate ⟨2026, 10, 12⟩
        { aliceValues with date_of_birth := some "2008-10-13" } ≠
      validate ⟨2026, 10, 13⟩
        { aliceValues with date_of_birth := some "2008-10-13" } := by decide

/-- Claim C9 amended: once the current date is fixed, validation is a pure,
idempotent function of the form values — no other controller state
(published errors, availability) influences the result, and equal values
always give equal results. -/
theorem validate_pure_given_date (today : Date) (s1 s2 : FormState)
    (h : s1.values = s2.values) :
    validate today s1.values = validate today s2.values ∧
    validate today s1.values = validate today s1.values := by
  rw [h]; exact ⟨rfl, rfl⟩

/-- Witness for C9's amended statement: two controller states sharing the
same values but differing in errors and availability validate equally. -/
theorem validate_pure_given_date_witness :
    validate day0
        ({ values := aliceValues, errors := [("name", "x")],
           emailTaken := some true } : FormState).values =
      validate day0
        ({ values := aliceValues, errors := [],
           emailTaken := none } : FormState).values ∧
    validate day0
        ({ values := aliceValues, errors := [("name", "x")],
           emailTaken := some true } : FormState).values =
      validate day0
        ({ values := aliceValues, errors := [("name", "x")],
           emailTaken := some true } : FormState).values :=
  validate_pure_given_date day0
    { values := aliceValues, errors := [("name", "x")],
      emailTaken := some true }
    { values := aliceValues, errors := [], emailTaken := none } rfl
